import Mathlib

/-!
Shallow embedding of the `internal/session` package of the neko repository
(file `src/internal/session/auth.go`): credential authentication
(`Authenticate`, `getToken`), the session registry (`Create`, `Get`,
`Delete`), host arbitration (`HasHost`, `SetHost`, `GetHost`, `ClearHost`),
broadcast fan-out (`Broadcast`, `AdminBroadcast`), and the lifecycle event
wrappers (`OnHost`, `OnHostCleared`, `OnConnected`, `OnDisconnected`).

Modelling conventions:
- Go strings are modelled as Lean `String` (sequences of characters); the
  byte indexing `bearer[0:6]`, `bearer[7:]` and `len(bearer)` of the source
  coincide with character indexing on ASCII data, which is all the scheme
  comparison against "BEARER" can match.
- The Go map `members` is modelled as an association list with map
  semantics (`mapInsert` replaces an existing key, `mapLookup` finds it,
  `mapRemove` deletes it).
- External effects are oracles passed in as function arguments: the
  identifier minter `utils.NewUID` is an `Except String String` input, a
  session's `Disconnect(reason)` and `Send(v)` results are functions
  returning `Option String` (`none` = nil error).
- Event emission (`emmiter.Emit`) is modelled by appending the emitted
  event, with its payload, to an `events` log in the manager state.
-/

set_option autoImplicit false

/-- ASCII upper-casing of one character; models the effect of
`strings.ToUpper` on the 6-character scheme prefix that is compared against
the ASCII literal "BEARER". -/
def asciiUpperChar (c : Char) : Char :=
  if 'a' ≤ c ∧ c ≤ 'z' then Char.ofNat (c.toNat - 32) else c

/-- Model of `strings.ToUpper` restricted to the ASCII range (see module comment). -/
def asciiToUpper (s : String) : String :=
  ⟨s.data.map asciiUpperChar⟩

/-- Character-based prefix, modelling the Go byte slice `s[0:n]` on ASCII data. -/
def strTake (s : String) (n : Nat) : String :=
  ⟨s.data.take n⟩

/-- Character-based suffix, modelling the Go byte slice `s[n:]` on ASCII data. -/
def strDrop (s : String) (n : Nat) : String :=
  ⟨s.data.drop n⟩

/-- Character count, modelling Go `len(s)` on ASCII data. -/
def strLen (s : String) : Nat :=
  s.data.length

/-- The constant `token_name = "password"` of the source. -/
def token_name : String := "password"

/-- The parts of an `http.Request` that `getToken` reads.
`queryPassword` models `r.URL.Query().Get("password")`, which returns `""`
when the parameter is absent; `authorizationHeader` models
`r.Header.Get("Authorization")`, `""` when absent; `passwordCookie` models
`r.Cookie("password")`, `none` when the cookie is absent. -/
structure Request where
  queryPassword : String
  authorizationHeader : String
  passwordCookie : Option String
  deriving DecidableEq

/-- The Bearer-scheme test of `getToken`:
`len(bearer) > 7 && strings.ToUpper(bearer[0:6]) == "BEARER"`. -/
def bearerMatch (bearer : String) : Bool :=
  decide (7 < strLen bearer) && (asciiToUpper (strTake bearer 6) == "BEARER")

/-- Model of `getToken` of `auth.go`: query parameter `password` first (if non-empty),
then the Authorization header under `bearerMatch` (token = `bearer[7:]`),
then the `password` cookie's value, else `""`. -/
def getToken (r : Request) : String :=
  if r.queryPassword ≠ "" then
    r.queryPassword
  else if bearerMatch r.authorizationHeader then
    strDrop r.authorizationHeader 7
  else
    match r.passwordCookie with
    | some v => v
    | none => ""

/-- Token extraction following the specification's words for the claim under
test: the Authorization header must be exactly the 6-character scheme
(case-insensitive `Bearer`) followed by a space and the token. It differs
from the source's `getToken` only in requiring the seventh character to be
a space. -/
def bearerMatchSpec (bearer : String) : Bool :=
  decide (7 < strLen bearer) && (asciiToUpper (strTake bearer 6) == "BEARER")
    && (bearer.data.get? 6 == some ' ')

/-- Token extraction as the specification words it (see `bearerMatchSpec`). -/
def getTokenSpec (r : Request) : String :=
  if r.queryPassword ≠ "" then
    r.queryPassword
  else if bearerMatchSpec r.authorizationHeader then
    strDrop r.authorizationHeader 7
  else
    match r.passwordCookie with
    | some v => v
    | none => ""

/-- Model of `types.MemberProfile`: `{Secret, Name, IsAdmin}`. -/
structure MemberProfile where
  secret : String
  name : String
  isAdmin : Bool
  deriving DecidableEq

/-- Model of `SessionCtx`: one registered session. The `connected` flag is the
session's connectivity state, mutated by the transport layer; a freshly
created session starts disconnected (Go zero value). -/
structure SessionCtx where
  id : String
  profile : MemberProfile
  connected : Bool
  deriving DecidableEq

/-- Events emitted on the manager's emitter by the host arbiter, with their
payload (`types.Session` is an interface and may be nil, hence `Option`). -/
inductive HostEvent where
  | host (payload : Option SessionCtx)
  | hostCleared (payload : Option SessionCtx)
  deriving DecidableEq

/-- The mutable state of `SessionManagerCtx`: the host reference, the
`members` map, and the log of host events emitted so far. -/
structure ManagerState where
  host : Option SessionCtx
  members : List (String × SessionCtx)
  events : List HostEvent
  deriving DecidableEq

/-- Lookup in the `members` map (`session, ok := manager.members[id]`). -/
def mapLookup (m : List (String × SessionCtx)) (k : String) : Option SessionCtx :=
  match m with
  | [] => none
  | (k2, v) :: rest => if k2 = k then some v else mapLookup rest k

/-- Insert-or-replace in the `members` map (`manager.members[id] = session`). -/
def mapInsert (m : List (String × SessionCtx)) (k : String) (v : SessionCtx) :
    List (String × SessionCtx) :=
  match m with
  | [] => [(k, v)]
  | (k2, v2) :: rest => if k2 = k then (k, v) :: rest else (k2, v2) :: mapInsert rest k v

/-- Deletion from the `members` map (`delete(manager.members, id)`). -/
def mapRemove (m : List (String × SessionCtx)) (k : String) :
    List (String × SessionCtx) :=
  match m with
  | [] => []
  | (k2, v2) :: rest => if k2 = k then mapRemove rest k else (k2, v2) :: mapRemove rest k

/-- Model of `SessionManagerCtx.Create(id, profile)`: insert-or-replace the entry and
return the new session. No error path. -/
def Create (st : ManagerState) (id : String) (profile : MemberProfile) :
    ManagerState × SessionCtx :=
  let session : SessionCtx := { id := id, profile := profile, connected := false }
  ({ st with members := mapInsert st.members id session }, session)

/-- Model of `SessionManagerCtx.Get(id)`. -/
def Get (st : ManagerState) (id : String) : Option SessionCtx :=
  mapLookup st.members id

/-- Model of `SessionManagerCtx.Delete(id)`: lookup, then removal from the map, then
— only if the session was still connected — `session.Disconnect("member
deleted")`, whose result (`disc "member deleted"`) is the returned error.
`disc` is the oracle for the session's `Disconnect`. -/
def Delete (disc : String → Option String) (st : ManagerState) (id : String) :
    ManagerState × Option String :=
  match mapLookup st.members id with
  | none => (st, some "Member not found.")
  | some session =>
    let st2 : ManagerState := { st with members := mapRemove st.members id }
    if session.connected then (st2, disc "member deleted") else (st2, none)

/-- Modelled from the spec: the registration step of AuthGate —
`manager.New(id, isAdmin)` is called by `Authenticate` but its definition is
not under `src/`; per the spec it registers a new session via the registry's
`Create` with the minted id and a profile marking only the `isAdmin` flag
(no display name, no stored secret). -/
def NewSession (st : ManagerState) (id : String) (isAdmin : Bool) :
    ManagerState × SessionCtx :=
  Create st id { secret := "", name := "", isAdmin := isAdmin }

/-- Model of `config.Session`: the two configured secrets and the implicit-hosting flag. -/
structure SessionConfig where
  adminPassword : String
  password : String
  implicitHosting : Bool
  deriving DecidableEq

/-- Model of `SessionManagerCtx.Authenticate(r)`: extract the token, reject an empty
token, compare independently against the two configured secrets, reject a
token matching neither, mint an id (`mint` is the `utils.NewUID(32)`
oracle) propagating its error verbatim, and register the new session.
Returns the (possibly updated) state together with the session or error. -/
def Authenticate (cfg : SessionConfig) (mint : Except String String)
    (st : ManagerState) (r : Request) : ManagerState × Except String SessionCtx :=
  let token := getToken r
  if token = "" then
    (st, Except.error "no password provided")
  else
    let isAdmin : Bool := token == cfg.adminPassword
    let isUser : Bool := token == cfg.password
    if !isAdmin && !isUser then
      (st, Except.error "invalid password")
    else
      match mint with
      | Except.error e => (st, Except.error e)
      | Except.ok id =>
        let res := NewSession st id isAdmin
        (res.1, Except.ok res.2)

/-- Model of `SessionManagerCtx.HasHost()`: `manager.host != nil`. -/
def HasHost (st : ManagerState) : Bool :=
  st.host.isSome

/-- Model of `SessionManagerCtx.GetHost()`. -/
def GetHost (st : ManagerState) : Option SessionCtx :=
  st.host

/-- Model of `SessionManagerCtx.SetHost(host)`: unconditionally replace the host and
emit one `host` event carrying the new host. -/
def SetHost (st : ManagerState) (host : Option SessionCtx) : ManagerState :=
  { st with host := host, events := st.events ++ [HostEvent.host host] }

/-- Model of `SessionManagerCtx.ClearHost()`: set the host to nil and emit one
`host_cleared` event carrying the previous host. -/
def ClearHost (st : ManagerState) : ManagerState :=
  { st with host := none, events := st.events ++ [HostEvent.hostCleared st.host] }

/-- Model of `SessionManagerCtx.HasConnectedMembers()`. -/
def HasConnectedMembers (st : ManagerState) : Bool :=
  st.members.any (fun p => p.2.connected)

/-- Modelled from the spec: `utils.ArrayIn(id, exclude)` (not under `src/`)
is a membership test of `id` against the provided id collection; the source
guards it with `exclude != nil`, so a missing collection (`none`) disables
the exclusion filtering. -/
def excludedIn (exclude : Option (List String)) (id : String) : Bool :=
  match exclude with
  | none => false
  | some ids => ids.contains id

/-- The fan-out loop of `SessionManagerCtx.Broadcast`: skip sessions that
are not connected, skip excluded ids, otherwise attempt `session.Send(v)`
(the `send` oracle, keyed by session id); a failed send is logged as a
warning and the loop continues. Returns (ids delivery was attempted to,
warning log). -/
def broadcastLoop (send : String → Option String) :
    List (String × SessionCtx) → Option (List String) → List String × List String
  | [], _ => ([], [])
  | (id, session) :: rest, exclude =>
    let r := broadcastLoop send rest exclude
    if !session.connected then r
    else if excludedIn exclude id then r
    else
      match send id with
      | some _ => (id :: r.1, "broadcasting event has failed" :: r.2)
      | none => (id :: r.1, r.2)

/-- Model of `SessionManagerCtx.Broadcast(v, exclude)`. The payload `v` itself does
not influence the control flow and is folded into the `send` oracle. -/
def Broadcast (send : String → Option String) (st : ManagerState)
    (exclude : Option (List String)) : List String × List String :=
  broadcastLoop send st.members exclude

/-- The fan-out loop of `SessionManagerCtx.AdminBroadcast`: additionally
skips sessions whose profile is not admin. -/
def adminBroadcastLoop (send : String → Option String) :
    List (String × SessionCtx) → Option (List String) → List String × List String
  | [], _ => ([], [])
  | (id, session) :: rest, exclude =>
    let r := adminBroadcastLoop send rest exclude
    if !session.connected || !session.profile.isAdmin then r
    else if excludedIn exclude id then r
    else
      match send id with
      | some _ => (id :: r.1, "broadcasting admin event has failed" :: r.2)
      | none => (id :: r.1, r.2)

/-- Model of `SessionManagerCtx.AdminBroadcast(v, exclude)`. -/
def AdminBroadcast (send : String → Option String) (st : ManagerState)
    (exclude : Option (List String)) : List String × List String :=
  adminBroadcastLoop send st.members exclude

/-- Modelled from the spec: the external `types.CaptureManager` collaborator
(`Streaming() bool`, `StartStream()`, `StopStream()`); it is streaming
exactly between a start and the next stop, and the call counters record how
many start/stop calls it has received. -/
structure CaptureState where
  streaming : Bool
  startCalls : Nat
  stopCalls : Nat
  deriving DecidableEq

/-- Model of `CaptureManager.Streaming()`. -/
def Streaming (c : CaptureState) : Bool :=
  c.streaming

/-- Model of `CaptureManager.StartStream()` (modelled from the spec, see `CaptureState`). -/
def StartStream (c : CaptureState) : CaptureState :=
  { c with streaming := true, startCalls := c.startCalls + 1 }

/-- Model of `CaptureManager.StopStream()` (modelled from the spec, see `CaptureState`). -/
def StopStream (c : CaptureState) : CaptureState :=
  { c with streaming := false, stopCalls := c.stopCalls + 1 }

/-- Observable steps taken by the event-wrapper closures, in order. -/
inductive WrapAction where
  | startStream
  | stopStream
  | subscriber (s : SessionCtx)
  deriving DecidableEq

/-- The closure `OnConnected` registers for the `connected` event: if the
capture manager is not streaming, start it, then invoke the subscriber with
the session payload. Returns the capture state after the wrapper and the
trace of steps in execution order. -/
def OnConnectedWrapper (c : CaptureState) (s : SessionCtx) :
    CaptureState × List WrapAction :=
  if !(Streaming c) then
    (StartStream c, [WrapAction.startStream, WrapAction.subscriber s])
  else
    (c, [WrapAction.subscriber s])

/-- The closure `OnDisconnected` registers for the `disconnected` event: if
the capture manager is streaming and no connected members remain in `st`,
stop it, then invoke the subscriber. -/
def OnDisconnectedWrapper (st : ManagerState) (c : CaptureState) (s : SessionCtx) :
    CaptureState × List WrapAction :=
  if Streaming c && !(HasConnectedMembers st) then
    (StopStream c, [WrapAction.stopStream, WrapAction.subscriber s])
  else
    (c, [WrapAction.subscriber s])

/-- Outcome of running a registered listener wrapper on an event payload. -/
inductive CallbackResult where
  | invoked (s : SessionCtx)
  | panicked (msg : String)
  deriving DecidableEq

/-- The body of the closures registered by `OnHost` and `OnHostCleared`:
`listener(payload[0].(*SessionCtx))`. The type assertion is unchecked; in Go
an assertion `x.(*T)` on a nil interface value panics, so a nil payload
(modelled `none`) yields a runtime panic instead of invoking the listener. -/
def hostListenerBody (payload : Option SessionCtx) : CallbackResult :=
  match payload with
  | some s => CallbackResult.invoked s
  | none => CallbackResult.panicked "interface conversion: interface is nil, not *session.SessionCtx"

/-- Model of `SessionManagerCtx.ImplicitHosting()`: pure passthrough accessor. -/
def ImplicitHosting (cfg : SessionConfig) : Bool :=
  cfg.implicitHosting

deriving instance DecidableEq for Except

/-! Helper lemmas about the map operations. -/

theorem mapLookup_mapInsert (m : List (String × SessionCtx)) (k : String) (v : SessionCtx) :
    mapLookup (mapInsert m k v) k = some v := by
  induction m with
  | nil => simp [mapInsert, mapLookup]
  | cons p rest ih =>
    obtain ⟨k2, v2⟩ := p
    by_cases h : k2 = k <;> simp [mapInsert, mapLookup, h, ih]

theorem mapLookup_mapRemove (m : List (String × SessionCtx)) (k : String) :
    mapLookup (mapRemove m k) k = none := by
  induction m with
  | nil => simp [mapRemove, mapLookup]
  | cons p rest ih =>
    obtain ⟨k2, v2⟩ := p
    by_cases h : k2 = k <;> simp [mapRemove, mapLookup, h, ih]

theorem mapRemove_of_lookup_none (m : List (String × SessionCtx)) (k : String)
    (h : mapLookup m k = none) : mapRemove m k = m := by
  induction m with
  | nil => simp [mapRemove]
  | cons p rest ih =>
    obtain ⟨k2, v2⟩ := p
    by_cases hk : k2 = k
    · simp [mapLookup, hk] at h
    · simp [mapLookup, hk] at h
      simp [mapRemove, hk, ih h]

/-- C7: `Create(id, profile)` followed immediately by `Get(id)` returns the
session `Create` just returned; a second `Create` with the same id is a
silent last-write-wins upsert: `Get` then returns the second session and,
whenever the two sessions differ, no longer the first. -/
theorem Create_then_Get (st : ManagerState) (id : String) (p1 p2 : MemberProfile) :
    Get (Create st id p1).1 id = some (Create st id p1).2
    ∧ Get (Create (Create st id p1).1 id p2).1 id = some (Create (Create st id p1).1 id p2).2
    ∧ ((Create st id p1).2 ≠ (Create (Create st id p1).1 id p2).2 →
        Get (Create (Create st id p1).1 id p2).1 id ≠ some (Create st id p1).2) := by
  refine ⟨?_, ?_, ?_⟩
  · simp [Get, Create, mapLookup_mapInsert]
  · simp [Get, Create, mapLookup_mapInsert]
  · intro hne h
    have h2 : Get (Create (Create st id p1).1 id p2).1 id
        = some (Create (Create st id p1).1 id p2).2 := by
      simp [Get, Create, mapLookup_mapInsert]
    rw [h] at h2
    exact hne (Option.some.inj h2)

theorem Create_then_Get_witness :
    Get (Create (Create ⟨none, [], []⟩ "a" ⟨"", "", false⟩).1 "a" ⟨"", "", true⟩).1 "a"
      ≠ some (Create ⟨none, [], []⟩ "a" ⟨"", "", false⟩).2 :=
  (Create_then_Get ⟨none, [], []⟩ "a" ⟨"", "", false⟩ ⟨"", "", true⟩).2.2 (by decide)

/-- C8: `Delete` on an id absent from the registry fails with the
"Member not found." error and returns the state completely unchanged. -/
theorem Delete_absent (disc : String → Option String) (st : ManagerState) (id : String)
    (h : Get st id = none) :
    Delete disc st id = (st, some "Member not found.") := by
  have h2 : mapLookup st.members id = none := h
  simp [Delete, h2]

theorem Delete_absent_witness :
    Delete (fun _ => none) ⟨none, [("a", ⟨"a", ⟨"", "", false⟩, true⟩)], []⟩ "b"
      = (⟨none, [("a", ⟨"a", ⟨"", "", false⟩, true⟩)], []⟩, some "Member not found.") :=
  Delete_absent (fun _ => none) ⟨none, [("a", ⟨"a", ⟨"", "", false⟩, true⟩)], []⟩ "b"
    (by decide)

/-- C3: when `Delete(id)` finds the session, the map entry is removed (a
subsequent `Get` misses, regardless of the disconnect outcome), the host and
event log are untouched, and the returned error is exactly the result of
`Disconnect("member deleted")` when the session was still connected, nil
otherwise. -/
theorem Delete_found (disc : String → Option String) (st : ManagerState) (id : String)
    (s : SessionCtx) (h : Get st id = some s) :
    (Delete disc st id).1.members = mapRemove st.members id
    ∧ Get (Delete disc st id).1 id = none
    ∧ (Delete disc st id).1.host = st.host
    ∧ (Delete disc st id).1.events = st.events
    ∧ (Delete disc st id).2 = (if s.connected then disc "member deleted" else none) := by
  have h2 : mapLookup st.members id = some s := h
  by_cases hc : s.connected <;>
    simp [Delete, Get, h2, hc, mapLookup_mapRemove]

theorem Delete_found_witness :
    (Delete (fun _ => some "disconnect failed")
        ⟨none, [("a", ⟨"a", ⟨"", "", false⟩, true⟩)], []⟩ "a").2 = some "disconnect failed"
    ∧ Get (Delete (fun _ => some "disconnect failed")
        ⟨none, [("a", ⟨"a", ⟨"", "", false⟩, true⟩)], []⟩ "a").1 "a" = none := by
  have h := Delete_found (fun _ => some "disconnect failed")
    ⟨none, [("a", ⟨"a", ⟨"", "", false⟩, true⟩)], []⟩ "a" ⟨"a", ⟨"", "", false⟩, true⟩
    (by decide)
  refine ⟨?_, h.2.1⟩
  rw [h.2.2.2.2]
  rfl

/-- C5: at every state, `HasHost` is true exactly when `GetHost` is
non-none; `SetHost(s)` unconditionally replaces the host with `s` and
appends exactly one `host` event carrying `s`; `ClearHost` sets the host to
none and appends exactly one `host_cleared` event carrying the pre-clear
host value (none if already clear). Neither touches the members map. -/
theorem host_arbitration (st : ManagerState) (s : Option SessionCtx) :
    HasHost st = (GetHost st).isSome
    ∧ (SetHost st s).host = s
    ∧ (SetHost st s).events = st.events ++ [HostEvent.host s]
    ∧ (SetHost st s).members = st.members
    ∧ (ClearHost st).host = none
    ∧ (ClearHost st).events = st.events ++ [HostEvent.hostCleared (GetHost st)]
    ∧ (ClearHost st).members = st.members :=
  ⟨rfl, rfl, rfl, rfl, rfl, rfl, rfl⟩

/-- C1: a token equal to the configured admin password yields a newly
registered session with isAdmin = true (the admin comparison wins also when
both configured secrets are equal, since no inequality with the user
password is required); a token equal to the user password but not the admin
password yields a registered session with isAdmin = false; a non-empty token
matching neither secret fails with the invalid-credential error
("invalid password") leaving the state unchanged; a minter failure is
returned verbatim with the state unchanged. -/
theorem Authenticate_correct (cfg : SessionConfig) (st : ManagerState) (r : Request)
    (mint : Except String String) :
    (∀ id, getToken r ≠ "" → getToken r = cfg.adminPassword → mint = Except.ok id →
      Authenticate cfg mint st r
          = ((NewSession st id true).1, Except.ok (NewSession st id true).2)
      ∧ (NewSession st id true).2.profile.isAdmin = true
      ∧ Get (NewSession st id true).1 id = some (NewSession st id true).2)
    ∧ (∀ id, getToken r ≠ "" → getToken r = cfg.password → getToken r ≠ cfg.adminPassword →
      mint = Except.ok id →
      Authenticate cfg mint st r
          = ((NewSession st id false).1, Except.ok (NewSession st id false).2)
      ∧ (NewSession st id false).2.profile.isAdmin = false
      ∧ Get (NewSession st id false).1 id = some (NewSession st id false).2)
    ∧ (getToken r ≠ "" → getToken r ≠ cfg.adminPassword → getToken r ≠ cfg.password →
      Authenticate cfg mint st r = (st, Except.error "invalid password"))
    ∧ (∀ e, getToken r ≠ "" →
      (getToken r = cfg.adminPassword ∨ getToken r = cfg.password) →
      mint = Except.error e →
      Authenticate cfg mint st r = (st, Except.error e)) := by
  refine ⟨?_, ?_, ?_, ?_⟩
  · intro id h0 h1 hm
    subst hm
    have hA : (getToken r == cfg.adminPassword) = true := beq_iff_eq.mpr h1
    simp [Authenticate, NewSession, Create, Get, h0, hA, mapLookup_mapInsert]
  · intro id h0 h1 h2 hm
    subst hm
    have hA : (getToken r == cfg.adminPassword) = false := beq_eq_false_iff_ne.mpr h2
    have hU : (getToken r == cfg.password) = true := beq_iff_eq.mpr h1
    simp [Authenticate, NewSession, Create, Get, h0, hA, hU, mapLookup_mapInsert]
  · intro h0 h1 h2
    have hA : (getToken r == cfg.adminPassword) = false := beq_eq_false_iff_ne.mpr h1
    have hU : (getToken r == cfg.password) = false := beq_eq_false_iff_ne.mpr h2
    simp [Authenticate, h0, hA, hU]
  · intro e h0 hor hm
    subst hm
    rcases hor with h | h
    · have hA : (getToken r == cfg.adminPassword) = true := beq_iff_eq.mpr h
      simp [Authenticate, h0, hA]
    · have hU : (getToken r == cfg.password) = true := beq_iff_eq.mpr h
      simp [Authenticate, h0, hU]

theorem Authenticate_correct_witness :
    Authenticate ⟨"adm", "usr", false⟩ (Except.ok "id1") ⟨none, [], []⟩ ⟨"adm", "", none⟩
      = ((NewSession ⟨none, [], []⟩ "id1" true).1,
          Except.ok (NewSession ⟨none, [], []⟩ "id1" true).2)
    ∧ (NewSession ⟨none, [], []⟩ "id1" true).2.profile.isAdmin = true := by
  have h := (Authenticate_correct ⟨"adm", "usr", false⟩ ⟨none, [], []⟩ ⟨"adm", "", none⟩
      (Except.ok "id1")).1 "id1" (by decide) (by decide) rfl
  exact ⟨h.1, h.2.1⟩

theorem strDrop_ne_empty (b : String) (h : bearerMatch b = true) : strDrop b 7 ≠ "" := by
  simp [bearerMatch] at h
  intro hempty
  have h3 : b.data.drop 7 = [] := congrArg String.data hempty
  have h4 : b.data.length - 7 = 0 := by
    have h4a := congrArg List.length h3
    rw [List.length_drop] at h4a
    exact h4a
  have h5 : 7 < b.data.length := by simpa [strLen] using h.1
  omega

/-- C2 counterexample: the claim requires the Authorization header to be the
scheme followed by a space. For the header "BearerXabc" (seventh character
'X', not a space), with the query parameter and the cookie absent, the
claim's reading extracts no token (the spec-worded `getTokenSpec` yields
""), so `Authenticate` would have to fail with the no-credential error; the
source's `getToken` never inspects the seventh character, extracts "abc",
and with configured user password "abc" authenticates successfully. -/
theorem getToken_space_counterexample :
    getTokenSpec ⟨"", "BearerXabc", none⟩ = ""
    ∧ getToken ⟨"", "BearerXabc", none⟩ = "abc"
    ∧ (Authenticate ⟨"adm", "abc", false⟩ (Except.ok "id1") ⟨none, [], []⟩
        ⟨"", "BearerXabc", none⟩).2 ≠ Except.error "no password provided"
    ∧ (Authenticate ⟨"adm", "abc", false⟩ (Except.ok "id1") ⟨none, [], []⟩
        ⟨"", "BearerXabc", none⟩).2 = Except.ok ⟨"id1", ⟨"", "", false⟩, false⟩ :=
  ⟨by decide, by decide, by decide, by decide⟩

/-- C2 (amended): the token is extracted with strict precedence: a non-empty
`password` query parameter wins; else, when the Authorization header is
longer than 7 characters and its first six characters uppercase to "BEARER"
(the seventh character is skipped without being checked — it need not be a
space), the token is everything after the 7th character; else the value of
the `password` cookie (empty when the cookie is absent); when all three
sources are absent — empty query parameter, header failing the Bearer test,
no cookie — `Authenticate` fails with the no-credential error ("no password
provided"). Header "Bearer abc" with configured user password "abc"
authenticates successfully as non-admin. -/
theorem getToken_precedence (r : Request) :
    (r.queryPassword ≠ "" → getToken r = r.queryPassword)
    ∧ (r.queryPassword = "" → bearerMatch r.authorizationHeader = true →
        getToken r = strDrop r.authorizationHeader 7)
    ∧ (r.queryPassword = "" → bearerMatch r.authorizationHeader = false →
        getToken r = r.passwordCookie.getD "")
    ∧ (∀ cfg mint st, r.queryPassword = "" → bearerMatch r.authorizationHeader = false →
        r.passwordCookie = none →
        Authenticate cfg mint st r = (st, Except.error "no password provided"))
    ∧ (Authenticate ⟨"adm", "abc", false⟩ (Except.ok "newid") ⟨none, [], []⟩
        ⟨"", "Bearer abc", none⟩).2 = Except.ok ⟨"newid", ⟨"", "", false⟩, false⟩ := by
  refine ⟨?_, ?_, ?_, ?_, by decide⟩
  · intro h
    simp [getToken, h]
  · intro h hb
    simp [getToken, h, hb]
  · intro h hb
    cases hc : r.passwordCookie <;> simp [getToken, h, hb, hc]
  · intro cfg mint st hq hb hc
    have ht : getToken r = "" := by simp [getToken, hq, hb, hc]
    simp [Authenticate, ht]

theorem getToken_precedence_witness :
    getToken ⟨"q", "Bearer abc", some "c"⟩ = "q"
    ∧ Authenticate ⟨"adm", "usr", false⟩ (Except.ok "id1") ⟨none, [], []⟩ ⟨"", "", none⟩
        = (⟨none, [], []⟩, Except.error "no password provided") :=
  ⟨(getToken_precedence ⟨"q", "Bearer abc", some "c"⟩).1 (by decide),
    (getToken_precedence ⟨"", "", none⟩).2.2.2.1 ⟨"adm", "usr", false⟩ (Except.ok "id1")
      ⟨none, [], []⟩ rfl (by decide) rfl⟩

/-- C9: the extracted token is empty exactly when the `password` query
parameter is empty/absent, the Authorization header fails the Bearer test
(which requires at least one character after the 7th position), and the
`password` cookie is absent or holds the empty value; in that case
`Authenticate` fails with the "no password provided" error — even when a
configured secret is itself empty — and consequently, when both configured
secrets are empty, no request whatsoever can authenticate. -/
theorem empty_token_rejected (cfg : SessionConfig) (st : ManagerState)
    (mint : Except String String) (r : Request) :
    (getToken r = "" ↔
      (r.queryPassword = "" ∧ bearerMatch r.authorizationHeader = false
        ∧ r.passwordCookie.getD "" = ""))
    ∧ (getToken r = "" →
        Authenticate cfg mint st r = (st, Except.error "no password provided"))
    ∧ (cfg.adminPassword = "" → cfg.password = "" →
        ∀ st2 s, Authenticate cfg mint st r ≠ (st2, Except.ok s)) := by
  refine ⟨⟨?_, ?_⟩, ?_, ?_⟩
  · intro h
    by_cases hq : r.queryPassword = ""
    · by_cases hb : bearerMatch r.authorizationHeader = true
      · exfalso
        apply strDrop_ne_empty r.authorizationHeader hb
        simpa [getToken, hq, hb] using h
      · refine ⟨hq, Bool.eq_false_iff.mpr hb, ?_⟩
        cases hc : r.passwordCookie with
        | none => simp
        | some v =>
          simp [getToken, hq, hb, hc] at h
          simp [h]
    · rw [getToken, if_pos hq] at h
      exact absurd h hq
  · rintro ⟨hq, hb, hcv⟩
    cases hc : r.passwordCookie with
    | none => simp [getToken, hq, hb, hc]
    | some v =>
      simp [hc] at hcv
      simp [getToken, hq, hb, hc, hcv]
  · intro h
    simp [Authenticate, h]
  · intro hA hU st2 s hEq
    by_cases h : getToken r = ""
    · simp [Authenticate, h, Prod.ext_iff] at hEq
    · have hA2 : (getToken r == cfg.adminPassword) = false := by
        rw [beq_eq_false_iff_ne, hA]
        exact h
      have hU2 : (getToken r == cfg.password) = false := by
        rw [beq_eq_false_iff_ne, hU]
        exact h
      simp [Authenticate, h, hA2, hU2, Prod.ext_iff] at hEq

theorem empty_token_rejected_witness :
    Authenticate ⟨"", "", false⟩ (Except.ok "id1") ⟨none, [], []⟩ ⟨"", "", some ""⟩
      = (⟨none, [], []⟩, Except.error "no password provided") :=
  (empty_token_rejected ⟨"", "", false⟩ ⟨none, [], []⟩ (Except.ok "id1")
    ⟨"", "", some ""⟩).2.1 (by decide)

theorem broadcastLoop_fst (send : String → Option String)
    (members : List (String × SessionCtx)) (exclude : Option (List String)) :
    (broadcastLoop send members exclude).1
      = (members.filter (fun p => p.2.connected && !(excludedIn exclude p.1))).map Prod.fst := by
  induction members with
  | nil => rfl
  | cons p rest ih =>
    obtain ⟨id, session⟩ := p
    by_cases hc : session.connected <;> by_cases he : excludedIn exclude id <;>
      cases hs : send id <;>
        simp [broadcastLoop, hc, he, hs, ih, List.filter_cons]

theorem adminBroadcastLoop_fst (send : String → Option String)
    (members : List (String × SessionCtx)) (exclude : Option (List String)) :
    (adminBroadcastLoop send members exclude).1
      = (members.filter
          (fun p => p.2.connected && p.2.profile.isAdmin && !(excludedIn exclude p.1))).map
          Prod.fst := by
  induction members with
  | nil => rfl
  | cons p rest ih =>
    obtain ⟨id, session⟩ := p
    by_cases hc : session.connected <;> by_cases ha : session.profile.isAdmin <;>
      by_cases he : excludedIn exclude id <;> cases hs : send id <;>
        simp [adminBroadcastLoop, hc, ha, he, hs, ih, List.filter_cons]

/-- C4: `Broadcast` attempts delivery to exactly the registered sessions
that are connected and not in the exclusion collection, regardless of admin
status; `AdminBroadcast` to exactly those that are additionally admins; the
attempted recipients do not depend on the per-recipient delivery outcomes
(`send` versus `send2`), so one failure never prevents the remaining
attempts, and no delivery error reaches the caller (the fan-out returns no
error value at all); a missing exclusion collection disables filtering. -/
theorem Broadcast_fanout (send send2 : String → Option String) (st : ManagerState)
    (exclude : Option (List String)) :
    (Broadcast send st exclude).1
      = (st.members.filter (fun p => p.2.connected && !(excludedIn exclude p.1))).map Prod.fst
    ∧ (AdminBroadcast send st exclude).1
      = (st.members.filter
          (fun p => p.2.connected && p.2.profile.isAdmin && !(excludedIn exclude p.1))).map
          Prod.fst
    ∧ (Broadcast send st exclude).1 = (Broadcast send2 st exclude).1
    ∧ (AdminBroadcast send st exclude).1 = (AdminBroadcast send2 st exclude).1
    ∧ (Broadcast send st none).1 = (st.members.filter (fun p => p.2.connected)).map Prod.fst := by
  refine ⟨broadcastLoop_fst send st.members exclude,
    adminBroadcastLoop_fst send st.members exclude,
    (broadcastLoop_fst send st.members exclude).trans
      (broadcastLoop_fst send2 st.members exclude).symm,
    (adminBroadcastLoop_fst send st.members exclude).trans
      (adminBroadcastLoop_fst send2 st.members exclude).symm, ?_⟩
  rw [show (Broadcast send st none).1 = _ from broadcastLoop_fst send st.members none]
  simp [excludedIn]

/-- C6: when the capture manager is not streaming, the `connected` wrapper
issues exactly one StartStream call, before the subscriber runs; while
already streaming, a further `connected` event issues no start call; the
`disconnected` wrapper, while streaming and with no connected members
remaining, issues exactly one StopStream call before the subscriber runs. -/
theorem streaming_lifecycle (c : CaptureState) (st : ManagerState) (s s2 : SessionCtx) :
    (c.streaming = false →
      OnConnectedWrapper c s
          = (StartStream c, [WrapAction.startStream, WrapAction.subscriber s])
      ∧ (StartStream c).startCalls = c.startCalls + 1
      ∧ (StartStream c).streaming = true)
    ∧ (c.streaming = true →
      OnConnectedWrapper c s2 = (c, [WrapAction.subscriber s2]))
    ∧ (c.streaming = true → HasConnectedMembers st = false →
      OnDisconnectedWrapper st c s
          = (StopStream c, [WrapAction.stopStream, WrapAction.subscriber s])
      ∧ (StopStream c).stopCalls = c.stopCalls + 1
      ∧ (StopStream c).streaming = false) := by
  refine ⟨?_, ?_, ?_⟩
  · intro h
    exact ⟨by simp [OnConnectedWrapper, Streaming, h], rfl, rfl⟩
  · intro h
    simp [OnConnectedWrapper, Streaming, h]
  · intro h hm
    exact ⟨by simp [OnDisconnectedWrapper, Streaming, h, hm], rfl, rfl⟩

theorem streaming_lifecycle_witness :
    OnConnectedWrapper ⟨false, 0, 0⟩ ⟨"a", ⟨"", "", false⟩, true⟩
      = (⟨true, 1, 0⟩, [WrapAction.startStream, WrapAction.subscriber ⟨"a", ⟨"", "", false⟩, true⟩])
    ∧ OnConnectedWrapper ⟨true, 1, 0⟩ ⟨"b", ⟨"", "", false⟩, true⟩
      = (⟨true, 1, 0⟩, [WrapAction.subscriber ⟨"b", ⟨"", "", false⟩, true⟩])
    ∧ OnDisconnectedWrapper ⟨none, [("a", ⟨"a", ⟨"", "", false⟩, false⟩)], []⟩ ⟨true, 1, 0⟩
        ⟨"a", ⟨"", "", false⟩, false⟩
      = (⟨false, 1, 1⟩,
          [WrapAction.stopStream, WrapAction.subscriber ⟨"a", ⟨"", "", false⟩, false⟩]) := by
  have h1 := (streaming_lifecycle ⟨false, 0, 0⟩ ⟨none, [], []⟩ ⟨"a", ⟨"", "", false⟩, true⟩
    ⟨"a", ⟨"", "", false⟩, true⟩).1 rfl
  have h2 := (streaming_lifecycle ⟨true, 1, 0⟩ ⟨none, [], []⟩ ⟨"b", ⟨"", "", false⟩, true⟩
    ⟨"b", ⟨"", "", false⟩, true⟩).2.1 rfl
  have h3 := (streaming_lifecycle ⟨true, 1, 0⟩
    ⟨none, [("a", ⟨"a", ⟨"", "", false⟩, false⟩)], []⟩ ⟨"a", ⟨"", "", false⟩, false⟩
    ⟨"a", ⟨"", "", false⟩, false⟩).2.2 rfl (by decide)
  exact ⟨by rw [h1.1]; rfl, by rw [h2], by rw [h3.1]; rfl⟩

/-- C10: the closures registered by OnHost/OnHostCleared downcast the event
payload without a check; ClearHost while no host is set (and SetHost with a
none host) emits a none payload, and on a none payload the closure body
panics (Go: type assertion on a nil interface value) instead of invoking
the listener, which runs only for a real session payload. -/
theorem host_listener_nil_panic (st : ManagerState) (h : st.host = none) :
    (ClearHost st).events = st.events ++ [HostEvent.hostCleared none]
    ∧ (SetHost st none).events = st.events ++ [HostEvent.host none]
    ∧ hostListenerBody none
        = CallbackResult.panicked "interface conversion: interface is nil, not *session.SessionCtx"
    ∧ (∀ s, hostListenerBody (some s) = CallbackResult.invoked s) :=
  ⟨by simp [ClearHost, h], rfl, rfl, fun _ => rfl⟩

theorem host_listener_nil_panic_witness :
    (ClearHost ⟨none, [], []⟩).events = [HostEvent.hostCleared none]
    ∧ hostListenerBody none
        = CallbackResult.panicked "interface conversion: interface is nil, not *session.SessionCtx" := by
  have h := host_listener_nil_panic ⟨none, [], []⟩ rfl
  exact ⟨by rw [h.1]; rfl, h.2.2.1⟩
